import Mathlib

/-!
Verification of the TeraBox relay service (src/app.py) against its
natural-language specification.  The Python functions are shallowly
embedded as executable Lean definitions: dictionaries become association
lists over a small JSON value type, the one outbound HTTP call becomes an
explicit outcome parameter, and the standard-library URL parsing helpers
(`urllib.parse.urlparse`, `parse_qs`) are modelled on lists of characters
following the CPython implementation.
-/

set_option autoImplicit false

namespace Teraboxapi

/-! ### JSON-like values used for response dictionaries -/

inductive JVal where
  | jnull
  | jbool (b : Bool)
  | jnum (n : Int)
  | jstr (s : String)
  | jarr (elems : List JVal)
  | jobj (entries : List (String × JVal))

/-- Python dict lookup (`d.get(key)`): first matching key wins; keys in the
dictionaries built by the code are unique, so an association list is faithful. -/
def dictLookup : List (String × JVal) → String → Option JVal
  | [], _ => none
  | (k, v) :: rest, key => if k = key then some v else dictLookup rest key

/-- Python truthiness of a JSON value (the `if result.get` check on the
`success` entry). -/
def truthyJ : Option JVal → Bool
  | none => false
  | some JVal.jnull => false
  | some (JVal.jbool b) => b
  | some (JVal.jnum n) => n != 0
  | some (JVal.jstr s) => !s.data.isEmpty
  | some (JVal.jarr l) => !l.isEmpty
  | some (JVal.jobj l) => !l.isEmpty

/-! ### URL validator — `validate_terabox_url`, src/app.py lines 18-44

The Python code runs `re.match(pattern, url, re.IGNORECASE)` for each of
five patterns of the shape `https?://(?:www\.)?<host>/`.  Each pattern is a
literal string with two optional groups, so its match set is exactly the
four literal expansions below, compared case-insensitively at the start of
the string. -/

def terabox_hosts : List String :=
  ["terabox.com", "teraboxapp.com", "1024terabox.com", "4funbox.com", "terasharefile.com"]

/-- Strip a case-insensitive literal pattern from the front of a string
(character lists); `some rest` on success.  Case folding is ASCII, which
covers every character the patterns contain. -/
def stripCI : List Char → List Char → Option (List Char)
  | [], l => some l
  | _ :: _, [] => none
  | p :: ps, c :: cs => if p.toLower = c.toLower then stripCI ps cs else none

/-- The four literal expansions of `https?://(?:www\.)?<host>/`. -/
def patternExpansions (host : String) : List String :=
  ["http://" ++ host ++ "/", "http://www." ++ host ++ "/",
   "https://" ++ host ++ "/", "https://www." ++ host ++ "/"]

/-- Model of `re.match(pat, u, re.IGNORECASE)` for a literal pattern `pat`:
anchored at the start, case-insensitive. -/
def re_match_ci (pat u : String) : Bool := (stripCI pat.data u.data).isSome

/-- Function `validate_terabox_url(url)`.  The argument is `Option String` so that an
absent value (`None`) is representable; `if not url` rejects both `None`
and the empty string before the pattern loop. -/
def validate_terabox_url : Option String → Bool
  | none => false
  | some u =>
    if u.data.isEmpty then false
    else terabox_hosts.any fun h => (patternExpansions h).any fun pat => re_match_ci pat u

/-- Spec-side reading of the validator for the amended claim C1: the URL
starts, case-insensitively, with an http or https scheme, an optional
`www.`, an allow-listed hostname, and a literal `/`. -/
def specRecognizedSlash (u : String) : Bool :=
  terabox_hosts.any fun h => (patternExpansions h).any fun pat =>
    List.isPrefixOf (pat.data.map Char.toLower) (u.data.map Char.toLower)

/-- The claim C1 as stated: same prefixes but with no trailing `/` required
after the hostname (so an empty path is accepted). -/
def specRecognizedClaim (u : String) : Bool :=
  terabox_hosts.any fun h =>
    ["http://" ++ h, "http://www." ++ h, "https://" ++ h, "https://www." ++ h].any fun pat =>
      List.isPrefixOf (pat.data.map Char.toLower) (u.data.map Char.toLower)

theorem stripCI_isSome (ps : List Char) : ∀ l : List Char,
    (stripCI ps l).isSome = List.isPrefixOf (ps.map Char.toLower) (l.map Char.toLower) := by
  induction ps with
  | nil => intro l; simp [stripCI, List.isPrefixOf]
  | cons p ps ih =>
    intro l
    cases l with
    | nil => simp [stripCI, List.isPrefixOf]
    | cons c cs =>
      simp only [stripCI, List.map, List.isPrefixOf]
      by_cases h : p.toLower = c.toLower
      · simp [h, ih]
      · simp [h, beq_iff_eq]

/-- C1 (counterexample): the claim says an allow-listed hostname with an
empty path is accepted, but `https://terabox.com` (no slash after the
hostname) is rejected by the code while the same URL with a trailing slash
is accepted. -/
theorem C1_counterexample :
    validate_terabox_url (some "https://terabox.com") = false ∧
    specRecognizedClaim "https://terabox.com" = true ∧
    validate_terabox_url (some "https://terabox.com/") = true := by
  refine ⟨by decide, by decide, by decide⟩

/-- C1 (amended): `validate_terabox_url` returns true iff the string starts,
case-insensitively, with an http or https scheme, an optional `www.`
subdomain, one of the five allow-listed hostnames, and a literal `/`
(so a URL whose path is empty, lacking the slash after the hostname, is
rejected); an absent value and the empty string yield false, and the
function is total (never raises). -/
theorem C1_validate_amended :
    (∀ u : String, validate_terabox_url (some u) = specRecognizedSlash u) ∧
    validate_terabox_url none = false := by
  constructor
  · intro u
    by_cases h : u.data.isEmpty
    · have hd : u.data = [] := by simpa using h
      simp only [validate_terabox_url, specRecognizedSlash, re_match_ci, hd]
      decide
    · simp [validate_terabox_url, h, specRecognizedSlash, re_match_ci, stripCI_isSome]
  · rfl

/-! ### Model of `urllib.parse.urlparse` / `parse_qs` (CPython 3.10 semantics)

`extract_file_info` (src/app.py lines 47-76) relies on the standard
library.  The model below follows the CPython implementation on lists of
characters: WHATWG stripping of control bytes, scheme recognition, netloc
extraction with the mismatched-bracket `ValueError` (the only stdlib
exception path the repository can hit — it is what the `except` branch of
`extract_file_info` catches), fragment/query/params splitting, and
`parse_qsl` with its default `keep_blank_values=False` (items without `=`
and items with an empty value are dropped).  Percent escapes are decoded
byte-wise; multi-byte UTF-8 sequences are approximated by one character
per byte, which no claim depends on. -/

def c0ControlOrSpace (c : Char) : Bool := c.toNat ≤ 0x20

def removedUrlByte (c : Char) : Bool := c = '\t' || c = '\r' || c = '\n'

def schemeChar (c : Char) : Bool :=
  c.isAlpha || c.isDigit || c = '+' || c = '-' || c = '.'

def notNetlocEnd (c : Char) : Bool := c ≠ '/' && c ≠ '?' && c ≠ '#'

/-- CPython `_splitparams`: split the params part off the last path segment. -/
def splitparams (p : List Char) : List Char × List Char :=
  if p.contains ';' then
    if p.contains '/' then
      let rev := p.reverse
      let seg := (rev.takeWhile fun c => c ≠ '/').reverse
      let beforeSeg := (rev.dropWhile fun c => c ≠ '/').reverse
      if seg.contains ';' then
        (beforeSeg ++ seg.takeWhile fun c => c ≠ ';',
         (seg.dropWhile fun c => c ≠ ';').drop 1)
      else (p, [])
    else
      (p.takeWhile fun c => c ≠ ';', (p.dropWhile fun c => c ≠ ';').drop 1)
  else (p, [])

structure UrlParts where
  scheme : List Char
  netloc : List Char
  path : List Char
  params : List Char
  query : List Char
  fragment : List Char

def urlparse (url : String) : Except String UrlParts :=
  let u0 := (url.data.dropWhile c0ControlOrSpace).filter fun c => !removedUrlByte c
  let pre := u0.takeWhile fun c => c ≠ ':'
  let hasScheme : Bool :=
    decide (pre.length < u0.length) && !pre.isEmpty &&
      (match u0 with | c :: _ => c.isAlpha | [] => false) && pre.all schemeChar
  let scheme := if hasScheme then pre.map Char.toLower else []
  let u1 := if hasScheme then u0.drop (pre.length + 1) else u0
  let hasNetloc : Bool := match u1 with | '/' :: '/' :: _ => true | _ => false
  let netloc := if hasNetloc then (u1.drop 2).takeWhile notNetlocEnd else []
  let u2 := if hasNetloc then (u1.drop 2).dropWhile notNetlocEnd else u1
  if (netloc.contains '[' && !netloc.contains ']') ||
      (netloc.contains ']' && !netloc.contains '[') then
    Except.error "Invalid IPv6 URL"
  else
    let u3 := u2.takeWhile fun c => c ≠ '#'
    let fragment := (u2.dropWhile fun c => c ≠ '#').drop 1
    let path0 := u3.takeWhile fun c => c ≠ '?'
    let query := (u3.dropWhile fun c => c ≠ '?').drop 1
    let pp := splitparams path0
    Except.ok ⟨scheme, netloc, pp.fst, pp.snd, query, fragment⟩

/-- Python `str.split(sep)`: always at least one piece. -/
def splitOnChar (sep : Char) : List Char → List (List Char)
  | [] => [[]]
  | c :: rest =>
    let r := splitOnChar sep rest
    if c = sep then [] :: r
    else
      match r with
      | [] => [[c]]
      | x :: xs => (c :: x) :: xs

def hexDigitVal (c : Char) : Option Nat :=
  if '0' ≤ c ∧ c ≤ '9' then some (c.toNat - '0'.toNat)
  else if 'a' ≤ c ∧ c ≤ 'f' then some (c.toNat - 'a'.toNat + 10)
  else if 'A' ≤ c ∧ c ≤ 'F' then some (c.toNat - 'A'.toNat + 10)
  else none

/-- Model of `urllib.parse.unquote` on the percent escapes: a `%` followed by two
hex digits decodes to that byte; otherwise the `%` is kept literally. -/
def percentDecode : List Char → List Char
  | [] => []
  | '%' :: a :: b :: rest =>
    match hexDigitVal a, hexDigitVal b with
    | some x, some y => Char.ofNat (16 * x + y) :: percentDecode rest
    | _, _ => '%' :: percentDecode (a :: b :: rest)
  | '%' :: rest => '%' :: percentDecode rest
  | c :: rest => c :: percentDecode rest

def plusToSpace (c : Char) : Char := if c = '+' then ' ' else c

/-- Plus-to-space replacement followed by `unquote`, as in `parse_qsl`. -/
def unquotePlus (l : List Char) : List Char := percentDecode (l.map plusToSpace)

/-- Model of `urllib.parse.parse_qsl(qs)` with the default options. -/
def parse_qsl (q : List Char) : List (String × String) :=
  if q.isEmpty then []
  else
    (splitOnChar '&' q).filterMap fun item =>
      if item.isEmpty then none
      else
        let name := item.takeWhile fun c => c ≠ '='
        let value := (item.dropWhile fun c => c ≠ '=').drop 1
        if name.length = item.length then none
        else if value.isEmpty then none
        else some (String.mk (unquotePlus name), String.mk (unquotePlus value))

/-- The lookup `parse_qs(query).get` of the key `surl`, taking the head of
the value list: the first value recorded for the key `surl`. -/
def surlFromQuery (q : List Char) : Option String :=
  ((parse_qsl q).find? fun kv => kv.fst == "surl").map fun kv => kv.snd

/-! ### Identifier extractor — `extract_file_info`, src/app.py lines 47-76 -/

/-- The character class `[a-zA-Z0-9_-]`. -/
def surlChar (c : Char) : Bool := c.isAlpha || c.isDigit || c = '_' || c = '-'

/-- Model of the path search `re.search` with pattern slash-s-slash followed
by `([a-zA-Z0-9_-]+)`: leftmost occurrence of the
literal `/s/` followed by at least one class character; the capture is the
maximal run. -/
def searchS : List Char → Option String
  | '/' :: 's' :: '/' :: tail =>
    let run := tail.takeWhile surlChar
    if run.isEmpty then searchS ('s' :: '/' :: tail) else some (String.mk run)
  | _ :: rest => searchS rest
  | [] => none

structure FileInfo where
  surl : Option String
  url : String

/-- Python truthiness of an optional string (`if not surl`). -/
def optTruthy : Option String → Bool
  | none => false
  | some s => !s.data.isEmpty

/-- Function `extract_file_info(url)`: query parameter `surl` first, then the
`/s/<id>` path form; any exception inside (only the stdlib parse error in
this model) is caught and turns the whole result into `None`. -/
def extract_file_info (url : String) : Option FileInfo :=
  match urlparse url with
  | Except.error _ => none
  | Except.ok p =>
    let surl0 := surlFromQuery p.query
    let surl :=
      if optTruthy surl0 then surl0
      else
        match searchS p.path with
        | some m => some m
        | none => surl0
    some ⟨surl, url⟩

/-- The identifier the caller reads from the returned dictionary under the
key `surl`. -/
def extractedSurl (url : String) : Option String :=
  (extract_file_info url).bind fun fi => fi.surl

example : extractedSurl "https://host/s/test123" = some "test123" := by decide
example : extractedSurl "https://host/path?surl=test456" = some "test456" := by decide
example : extractedSurl "https://host/s/test123?surl=test456" = some "test456" := by decide
example : extractedSurl "https://example.com/home" = none := by decide
example : extract_file_info "http://[abc/s/x" = none := by rfl

/-! ### Remote lookup client and normalizer — `get_download_link`,
src/app.py lines 79-193

The one outbound `requests.get` plus `raise_for_status` plus
`response.json()` is modelled by an explicit outcome parameter:
`reqExn` is a `requests.exceptions.RequestException` (connection error,
timeout, bad HTTP status, malformed JSON body — `JSONDecodeError` is a
subclass), `otherExn` any other exception, and `ok` a parsed JSON body,
modelled as the fields the code reads (with the types the remote contract
gives them). -/

structure FileItem where
  server_filename : Option String
  size : Option Int
  fs_id : Option Int
  path : Option String
  isdir : Option Int
  category : Option Int
  dlink : Option String
  thumbs : Option (List (String × String))

structure RemoteData where
  errno : Option Int
  errmsg : Option String
  list : Option (List FileItem)
  shareid : Option Int
  uk : Option Int

inductive HttpOutcome where
  | reqExn (msg : String)
  | otherExn (msg : String)
  | ok (data : RemoteData)

/-- Python `d.get(key)` for a missing-or-numeric field, emitted as JSON. -/
def optJNum : Option Int → JVal
  | none => JVal.jnull
  | some n => JVal.jnum n

/-- Python `d.get(key)` on a string-valued sub-dictionary (`thumbs`). -/
def lookupStr (l : List (String × String)) (key : String) : Option String :=
  (l.find? fun kv => kv.fst == key).map fun kv => kv.snd

/-- Python truthiness of the optional `thumbs` sub-dictionary. -/
def thumbsTruthy : Option (List (String × String)) → Bool
  | none => false
  | some l => !l.isEmpty

/-- The `file_data` dictionary built for each record of the remote list
(src/app.py lines 150-168): six unconditional keys with defaults, then
`download_link` when `dlink` is truthy and `thumbnail` when `thumbs` is a
truthy dictionary (value of `thumbs.get` at `url3`, defaulting to the empty string). -/
def file_data_of (it : FileItem) : List (String × JVal) :=
  let base := [
    ("filename", JVal.jstr (it.server_filename.getD "Unknown")),
    ("size", JVal.jnum (it.size.getD 0)),
    ("fs_id", optJNum it.fs_id),
    ("path", JVal.jstr (it.path.getD "")),
    ("isdir", JVal.jnum (it.isdir.getD 0)),
    ("category", JVal.jnum (it.category.getD 0))]
  let withDl :=
    if optTruthy it.dlink then base ++ [("download_link", JVal.jstr (it.dlink.getD ""))]
    else base
  if thumbsTruthy it.thumbs then
    withDl ++ [("thumbnail", JVal.jstr ((lookupStr (it.thumbs.getD []) "url3").getD ""))]
  else withDl

/-- Function `get_download_link(url)`: extraction, the guarded remote call, the
`errno` check, the empty-list check, and the success payload. -/
def get_download_link (url : String) (transport : HttpOutcome) : List (String × JVal) :=
  let extractFail : List (String × JVal) :=
    [("success", JVal.jbool false),
     ("error", JVal.jstr "Could not extract file information from URL")]
  match extract_file_info url with
  | none => extractFail
  | some fi =>
    if !optTruthy fi.surl then extractFail
    else
      let surl := fi.surl.getD ""
      match transport with
      | HttpOutcome.reqExn m =>
        [("success", JVal.jbool false), ("error", JVal.jstr ("Network error: " ++ m))]
      | HttpOutcome.otherExn m =>
        [("success", JVal.jbool false), ("error", JVal.jstr m)]
      | HttpOutcome.ok data =>
        if data.errno ≠ some 0 then
          [("success", JVal.jbool false),
           ("error", JVal.jstr
             ("TeraBox API error: " ++ data.errmsg.getD "Unknown error from TeraBox API")),
           ("errno", optJNum data.errno)]
        else
          let file_list := data.list.getD []
          if file_list.isEmpty then
            [("success", JVal.jbool false),
             ("error", JVal.jstr "No files found in the shared link")]
          else
            [("success", JVal.jbool true),
             ("surl", JVal.jstr surl),
             ("original_url", JVal.jstr url),
             ("files", JVal.jarr (file_list.map fun it => JVal.jobj (file_data_of it))),
             ("share_info", JVal.jobj
               [("shareid", optJNum data.shareid), ("uk", optJNum data.uk)]),
             ("message", JVal.jstr
               ("Successfully extracted " ++ toString file_list.length ++ " file(s)"))]

/-! ### HTTP facade — `validate_url` and `download_file`,
src/app.py lines 221-326

`request.get_json()` is modelled as `Option (Option String)`: `none` is a
missing (or falsy) JSON body, `some urlField` a truthy JSON object whose
optional `url` member is the given string.  The `except Exception`
wrapper of each handler is modelled by the `fault` parameter: `some d`
means an unanticipated exception with detail string `d` escaped the body
of the `try`. -/

def failResp (msg : String) : List (String × JVal) :=
  [("success", JVal.jbool false), ("error", JVal.jstr msg)]

def internalErrorResp (details : String) : List (String × JVal) :=
  [("success", JVal.jbool false), ("error", JVal.jstr "Internal server error"),
   ("details", JVal.jstr details)]

def validate_url (fault : Option String) (body : Option (Option String)) :
    List (String × JVal) × Nat :=
  match fault with
  | some d => (internalErrorResp d, 500)
  | none =>
    match body with
    | none => (failResp "No JSON data provided", 400)
    | some urlField =>
      match urlField with
      | none => (failResp "URL parameter is required", 400)
      | some u =>
        if u.data.isEmpty then (failResp "URL parameter is required", 400)
        else if validate_terabox_url (some u) then
          ([("success", JVal.jbool true), ("valid", JVal.jbool true),
            ("message", JVal.jstr "Valid TeraBox URL")], 200)
        else
          ([("success", JVal.jbool true), ("valid", JVal.jbool false),
            ("message", JVal.jstr "Invalid TeraBox URL")], 200)

def download_file (fault : Option String) (body : Option (Option String))
    (transport : HttpOutcome) : List (String × JVal) × Nat :=
  match fault with
  | some d => (internalErrorResp d, 500)
  | none =>
    match body with
    | none => (failResp "No JSON data provided", 400)
    | some urlField =>
      match urlField with
      | none => (failResp "URL parameter is required", 400)
      | some u =>
        if u.data.isEmpty then (failResp "URL parameter is required", 400)
        else if !validate_terabox_url (some u) then
          (failResp "Invalid TeraBox URL provided", 400)
        else
          let result := get_download_link u transport
          if truthyJ (dictLookup result "success") then (result, 200) else (result, 400)

/-! ### Helper lemmas -/

theorem optTruthy_some {s : String} (h : s.data ≠ []) : optTruthy (some s) = true := by
  unfold optTruthy
  cases hs : s.data with
  | nil => exact absurd hs h
  | cons c cs => simp [hs]

theorem optTruthy_eq_true {o : Option String} (h : optTruthy o = true) :
    ∃ s, o = some s ∧ s.data ≠ [] := by
  cases o with
  | none => simp [optTruthy] at h
  | some s =>
    refine ⟨s, rfl, ?_⟩
    intro hs
    simp [optTruthy, hs] at h

theorem percentDecode_ne_nil : ∀ {l : List Char}, l ≠ [] → percentDecode l ≠ [] := by
  intro l h
  rw [percentDecode.eq_def]
  split
  · exact absurd rfl h
  · split <;> simp
  · simp
  · simp

theorem unquotePlus_ne_nil {l : List Char} (h : l ≠ []) : unquotePlus l ≠ [] := by
  unfold unquotePlus
  apply percentDecode_ne_nil
  simpa using h

theorem parse_qsl_val_ne_nil {q : List Char} {kv : String × String}
    (h : kv ∈ parse_qsl q) : kv.snd.data ≠ [] := by
  unfold parse_qsl at h
  by_cases hq : q.isEmpty
  · simp [hq] at h
  · simp only [hq, Bool.false_eq_true, if_false] at h
    rcases List.mem_filterMap.mp h with ⟨item, _, hf⟩
    by_cases hi : item.isEmpty
    · simp [hi] at hf
    · simp only [hi, Bool.false_eq_true, if_false] at hf
      split at hf
      · exact absurd hf (by simp)
      · split at hf
        · exact absurd hf (by simp)
        · rename_i hv
          have := (Option.some.injEq _ _).mp hf
          subst this
          have hvne : ((item.dropWhile fun c => c ≠ '=').drop 1) ≠ [] := by
            intro hnil
            rw [hnil] at hv
            exact hv rfl
          simpa using unquotePlus_ne_nil hvne

theorem surlFromQuery_ne_nil {q : List Char} {v : String}
    (h : surlFromQuery q = some v) : v.data ≠ [] := by
  unfold surlFromQuery at h
  rcases Option.map_eq_some'.mp h with ⟨kv, hfind, hsnd⟩
  have hmem := List.mem_of_find?_eq_some hfind
  have := parse_qsl_val_ne_nil hmem
  rwa [hsnd] at this

/-! ### Claims C2 and C3 -/

/-- C2: `extract_file_info` resolves the identifier by first reading the
`surl` query parameter, using it when present (its value is then
necessarily non-empty); only otherwise does it match the path against the
`/s/<run of [a-zA-Z0-9_-]>` form; when a URL carries both forms the query
parameter wins, as the concrete examples show. -/
theorem C2_surl_precedence :
    (∀ (url : String) (p : UrlParts), urlparse url = Except.ok p →
      (∀ v, surlFromQuery p.query = some v → extractedSurl url = some v) ∧
      (surlFromQuery p.query = none → extractedSurl url = searchS p.path)) ∧
    extractedSurl "https://host/s/test123" = some "test123" ∧
    extractedSurl "https://host/path?surl=test456" = some "test456" ∧
    extractedSurl "https://host/s/test123?surl=test456" = some "test456" := by
  refine ⟨?_, by decide, by decide, by decide⟩
  intro url p hp
  constructor
  · intro v hv
    have hne := surlFromQuery_ne_nil hv
    unfold extractedSurl extract_file_info
    rw [hp]
    simp [hv, optTruthy_some hne]
  · intro hv
    unfold extractedSurl extract_file_info
    rw [hp]
    simp only [hv, optTruthy, Bool.false_eq_true, if_false, Option.bind_eq_bind,
      Option.some_bind]
    cases hs : searchS p.path <;> simp [hs]

/-- C2 witness: the general precedence statement applied to a URL carrying
both forms. -/
theorem C2_surl_precedence_witness :
    extractedSurl "https://x.y/s/path77?b=c&surl=zz9" = some "zz9" :=
  ((C2_surl_precedence.1 "https://x.y/s/path77?b=c&surl=zz9"
    ⟨"https".data, "x.y".data, "/s/path77".data, [], "b=c&surl=zz9".data, []⟩ rfl).1
    "zz9" rfl)

/-- C3: `extract_file_info` never raises: the stdlib parse error (the one
exception source in its body) is caught and yields `None`, and a parsed
URL carrying neither a `surl` query parameter nor an `/s/<id>` path
segment yields an absent identifier. -/
theorem C3_extract_never_raises :
    (∀ url e, urlparse url = Except.error e → extract_file_info url = none) ∧
    (∀ url p, urlparse url = Except.ok p → surlFromQuery p.query = none →
      searchS p.path = none → extractedSurl url = none) := by
  constructor
  · intro url e he
    unfold extract_file_info
    rw [he]
  · intro url p hp hq hs
    unfold extractedSurl extract_file_info
    rw [hp]
    simp [hq, hs, optTruthy]

/-- C3 witness: a malformed URL (mismatched IPv6 bracket) and a URL with
neither identifier form. -/
theorem C3_extract_never_raises_witness :
    extract_file_info "http://[abc" = none ∧
    extractedSurl "https://example.com/home?a=b" = none :=
  ⟨C3_extract_never_raises.1 "http://[abc" "Invalid IPv6 URL" rfl,
   C3_extract_never_raises.2 "https://example.com/home?a=b"
     ⟨"https".data, "example.com".data, "/home".data, [], "a=b".data, []⟩ rfl rfl rfl⟩

/-! ### Claims C4 and C7 — the two POST routes -/

/-- Every dictionary `get_download_link` can return starts with a boolean
`success` entry. -/
theorem get_download_link_success (url : String) (t : HttpOutcome) :
    ∃ b, dictLookup (get_download_link url t) "success" = some (JVal.jbool b) := by
  unfold get_download_link
  split
  · exact ⟨false, rfl⟩
  · split
    · exact ⟨false, rfl⟩
    · split
      · exact ⟨false, rfl⟩
      · exact ⟨false, rfl⟩
      · split
        · exact ⟨false, rfl⟩
        · rename_i data herr
          by_cases hl : (data.list.getD []).isEmpty = true
          · exact ⟨false, by simp [hl, dictLookup]⟩
          · exact ⟨true, by simp [hl, dictLookup]⟩

/-- C4: on `/api/download`, a missing JSON body or missing `url` field is a
400; a URL the validator rejects is a 400 with a `success:false` payload;
otherwise the handler returns the normalized lookup result with status 200
exactly when its `success` field is true and 400 otherwise; an
unanticipated fault is caught and becomes a 500 with the generic message
and a details string. -/
theorem C4_download_route :
    (∀ t, download_file none none t = (failResp "No JSON data provided", 400)) ∧
    (∀ t, download_file none (some none) t = (failResp "URL parameter is required", 400)) ∧
    (∀ t u, u.data = [] →
      download_file none (some (some u)) t = (failResp "URL parameter is required", 400)) ∧
    (∀ t u, validate_terabox_url (some u) = false → u.data ≠ [] →
      download_file none (some (some u)) t = (failResp "Invalid TeraBox URL provided", 400)) ∧
    (∀ t u, validate_terabox_url (some u) = true →
      (download_file none (some (some u)) t).1 = get_download_link u t ∧
      ((download_file none (some (some u)) t).2 = 200 ↔
        dictLookup (get_download_link u t) "success" = some (JVal.jbool true)) ∧
      ((download_file none (some (some u)) t).2 = 200 ∨
        (download_file none (some (some u)) t).2 = 400)) ∧
    (∀ body t d, download_file (some d) body t = (internalErrorResp d, 500)) := by
  refine ⟨fun t => rfl, fun t => rfl, ?_, ?_, ?_, fun body t d => rfl⟩
  · intro t u hu
    unfold download_file
    simp [hu]
  · intro t u hv hu
    have hne : u.data.isEmpty = false := by
      cases hd : u.data with
      | nil => exact absurd hd hu
      | cons c cs => simp [hd]
    unfold download_file
    simp [hne, hv]
  · intro t u hv
    have hne : u.data.isEmpty = false := by
      cases hd : u.data with
      | nil =>
        exfalso
        have hfalse : validate_terabox_url (some u) = false := by
          unfold validate_terabox_url
          simp [hd]
        rw [hfalse] at hv
        exact absurd hv (by simp)
      | cons c cs => simp [hd]
    obtain ⟨b, hb⟩ := get_download_link_success u t
    unfold download_file
    simp only [hne, Bool.false_eq_true, if_false, hv, Bool.not_true]
    rw [hb]
    cases b with
    | true => exact ⟨rfl, by simp [truthyJ, hb], by simp [truthyJ]⟩
    | false => exact ⟨rfl, by simp [truthyJ, hb], by simp [truthyJ]⟩

/-- C4 witness: a URL the validator rejects gets the 400 failure payload. -/
theorem C4_download_route_witness :
    download_file none (some (some "https://google.com")) (HttpOutcome.reqExn "x") =
      (failResp "Invalid TeraBox URL provided", 400) :=
  C4_download_route.2.2.2.1 (HttpOutcome.reqExn "x") "https://google.com"
    (by decide) (by decide)

/-- C7: on `/api/validate`, a body with a non-empty `url` string always
gets a 200 whose payload has `success:true` and a boolean `valid` field
carrying the validator verdict (an invalid URL is reported inside the 200
as `valid:false`); a missing body or missing `url` field gets a 400 with
`success:false`. -/
theorem C7_validate_route :
    validate_url none none = (failResp "No JSON data provided", 400) ∧
    validate_url none (some none) = (failResp "URL parameter is required", 400) ∧
    (∀ u, u.data = [] →
      validate_url none (some (some u)) = (failResp "URL parameter is required", 400)) ∧
    (∀ u, u.data ≠ [] →
      (validate_url none (some (some u))).2 = 200 ∧
      dictLookup (validate_url none (some (some u))).1 "success" = some (JVal.jbool true) ∧
      dictLookup (validate_url none (some (some u))).1 "valid" =
        some (JVal.jbool (validate_terabox_url (some u)))) ∧
    (∀ body d, validate_url (some d) body = (internalErrorResp d, 500)) := by
  refine ⟨rfl, rfl, ?_, ?_, fun body d => rfl⟩
  · intro u hu
    unfold validate_url
    simp [hu]
  · intro u hu
    have hne : u.data.isEmpty = false := by
      cases hd : u.data with
      | nil => exact absurd hd hu
      | cons c cs => simp [hd]
    unfold validate_url
    cases hv : validate_terabox_url (some u) with
    | true => simp [hne, hv, dictLookup]
    | false => simp [hne, hv, dictLookup]

/-- C7 witness: an invalid URL is reported inside a 200 response as
`valid:false`. -/
theorem C7_validate_route_witness :
    (validate_url none (some (some "https://google.com"))).2 = 200 ∧
    dictLookup (validate_url none (some (some "https://google.com"))).1 "valid" =
      some (JVal.jbool false) := by
  have h := C7_validate_route.2.2.2.1 "https://google.com" (by decide)
  have hv : validate_terabox_url (some "https://google.com") = false := by decide
  exact ⟨h.1, by rw [h.2.2, hv]⟩

/-! ### Claims C5, C6, C8 — the remote lookup error branches and the
success invariant -/

/-- C5: a remote JSON body with a present, non-zero `errno` yields a
failure dictionary whose error string embeds the remote message verbatim
(prefixed by `TeraBox API error: `) together with the numeric code. -/
theorem C5_remote_error_passthrough (url s : String) (data : RemoteData) (e : Int) (m : String)
    (hs : extractedSurl url = some s) (hne : s.data ≠ [])
    (herr : data.errno = some e) (he : e ≠ 0) (hm : data.errmsg = some m) :
    get_download_link url (HttpOutcome.ok data) =
      [("success", JVal.jbool false),
       ("error", JVal.jstr ("TeraBox API error: " ++ m)),
       ("errno", JVal.jnum e)] := by
  unfold extractedSurl at hs
  cases hE : extract_file_info url with
  | none => rw [hE] at hs; simp at hs
  | some fi =>
    rw [hE] at hs
    simp only [Option.bind_eq_bind, Option.some_bind] at hs
    unfold get_download_link
    rw [hE]
    have ht : optTruthy (some s) = true := optTruthy_some hne
    simp [hs, ht, herr, hm, he, optJNum]

/-- C5 witness. -/
theorem C5_remote_error_passthrough_witness :
    get_download_link "https://terabox.com/s/abc"
      (HttpOutcome.ok ⟨some (-6), some "need verify", some [], none, none⟩) =
      [("success", JVal.jbool false),
       ("error", JVal.jstr ("TeraBox API error: " ++ "need verify")),
       ("errno", JVal.jnum (-6))] :=
  C5_remote_error_passthrough "https://terabox.com/s/abc" "abc"
    ⟨some (-6), some "need verify", some [], none, none⟩ (-6) "need verify"
    (by decide) (by decide) rfl (by decide) rfl

/-- C6: once an identifier was extracted, a transport-level exception
(`requests.exceptions.RequestException`: connection error, timeout, bad
status, malformed JSON body) becomes a failure dictionary with a
`Network error: ` message, and any other exception becomes a failure
dictionary carrying the exception text; no exception escapes the
function, which is total in this model. -/
theorem C6_transport_exceptions_caught (url s m : String)
    (hs : extractedSurl url = some s) (hne : s.data ≠ []) :
    get_download_link url (HttpOutcome.reqExn m) =
      [("success", JVal.jbool false), ("error", JVal.jstr ("Network error: " ++ m))] ∧
    get_download_link url (HttpOutcome.otherExn m) =
      [("success", JVal.jbool false), ("error", JVal.jstr m)] := by
  unfold extractedSurl at hs
  cases hE : extract_file_info url with
  | none => rw [hE] at hs; simp at hs
  | some fi =>
    rw [hE] at hs
    simp only [Option.bind_eq_bind, Option.some_bind] at hs
    have ht : optTruthy fi.surl = true := by
      rw [hs]
      exact optTruthy_some hne
    constructor <;> (unfold get_download_link; rw [hE]; simp [ht])

/-- C6 witness. -/
theorem C6_transport_exceptions_caught_witness :
    get_download_link "https://4funbox.com/s/q1" (HttpOutcome.reqExn "timed out") =
      [("success", JVal.jbool false), ("error", JVal.jstr ("Network error: " ++ "timed out"))] :=
  (C6_transport_exceptions_caught "https://4funbox.com/s/q1" "q1" "timed out"
    (by decide) (by decide)).1

/-- C8: whenever `get_download_link` produces a `success:true` dictionary,
its `surl` entry is a non-empty string; a success payload is never built
when no identifier was extracted. -/
theorem C8_success_implies_surl (url : String) (t : HttpOutcome)
    (h : dictLookup (get_download_link url t) "success" = some (JVal.jbool true)) :
    ∃ s, dictLookup (get_download_link url t) "surl" = some (JVal.jstr s) ∧ s.data ≠ [] := by
  unfold get_download_link at h ⊢
  cases hE : extract_file_info url with
  | none =>
    rw [hE] at h
    simp [dictLookup] at h
  | some fi =>
    rw [hE] at h
    dsimp only at h ⊢
    cases hs : optTruthy fi.surl with
    | false =>
      rw [hs] at h
      simp [dictLookup] at h
    | true =>
      rw [hs] at h
      simp only [Bool.not_true, Bool.false_eq_true, if_false] at h ⊢
      cases t with
      | reqExn m => simp [dictLookup] at h
      | otherExn m => simp [dictLookup] at h
      | ok data =>
        dsimp only at h ⊢
        by_cases he : data.errno ≠ some 0
        · rw [if_pos he] at h
          simp [dictLookup] at h
        · rw [if_neg he] at h ⊢
          by_cases hl : (data.list.getD []).isEmpty = true
          · simp [hl, dictLookup] at h
          · obtain ⟨s, hsome, hdata⟩ := optTruthy_eq_true hs
            refine ⟨s, ?_, hdata⟩
            simp [hl, dictLookup, hsome]

/-- C8 witness: a concrete successful lookup carries a `surl` entry. -/
theorem C8_success_implies_surl_witness :
    (dictLookup
      (get_download_link "https://terabox.com/s/ab"
        (HttpOutcome.ok ⟨some 0, none,
          some [⟨none, none, none, none, none, none, none, none⟩], some 1, some 2⟩))
      "surl").isSome = true := by
  obtain ⟨s, h1, _⟩ := C8_success_implies_surl "https://terabox.com/s/ab"
    (HttpOutcome.ok ⟨some 0, none,
      some [⟨none, none, none, none, none, none, none, none⟩], some 1, some 2⟩) rfl
  rw [h1]
  rfl

/-! ### Claims C9 and C10 — per-record field mapping -/

/-- C9 counterexample: a record whose `thumbs` dictionary is non-empty but
has no `url3` variant still gets a `thumbnail` key, with the placeholder
value `""` — the claim says the field is only present when the `url3`
variant exists and that placeholders are never emitted. -/
theorem C9_thumbnail_counterexample :
    lookupStr [("url1", "t1")] "url3" = none ∧
    dictLookup
      (file_data_of ⟨some "a.mp4", some 5, some 7, some "/a.mp4", some 0, some 1, none,
        some [("url1", "t1")]⟩) "thumbnail" = some (JVal.jstr "") :=
  ⟨rfl, rfl⟩

/-- C9 (amended): `download_link` is present exactly when the record
carries a truthy (non-empty) `dlink`, with that value; `thumbnail` is
present exactly when the record carries a truthy (non-empty) `thumbs`
dictionary, and its value is the `url3` variant when present and the
empty string otherwise. -/
theorem C9_optional_fields (it : FileItem) :
    ((dictLookup (file_data_of it) "download_link").isSome = optTruthy it.dlink) ∧
    (∀ s, it.dlink = some s → s.data ≠ [] →
      dictLookup (file_data_of it) "download_link" = some (JVal.jstr s)) ∧
    ((dictLookup (file_data_of it) "thumbnail").isSome = thumbsTruthy it.thumbs) ∧
    (∀ l, it.thumbs = some l → l ≠ [] →
      dictLookup (file_data_of it) "thumbnail" =
        some (JVal.jstr ((lookupStr l "url3").getD ""))) := by
  refine ⟨?_, ?_, ?_, ?_⟩
  · unfold file_data_of
    cases hd : optTruthy it.dlink <;> cases ht : thumbsTruthy it.thumbs <;>
      simp [hd, ht, dictLookup]
  · intro s hsome hne
    unfold file_data_of
    cases ht : thumbsTruthy it.thumbs <;>
      simp [hsome, optTruthy_some hne, ht, dictLookup]
  · unfold file_data_of
    cases hd : optTruthy it.dlink <;> cases ht : thumbsTruthy it.thumbs <;>
      simp [hd, ht, dictLookup]
  · intro l hsome hne
    have ht : thumbsTruthy (some l) = true := by
      unfold thumbsTruthy
      cases l with
      | nil => exact absurd rfl hne
      | cons kv rest => simp
    unfold file_data_of
    cases hd : optTruthy it.dlink <;> simp [hsome, hd, ht, dictLookup]

/-- C9 witness. -/
theorem C9_optional_fields_witness :
    dictLookup
      (file_data_of ⟨none, none, none, none, none, none, some "DL", some [("url3", "T3")]⟩)
      "download_link" = some (JVal.jstr "DL") ∧
    dictLookup
      (file_data_of ⟨none, none, none, none, none, none, some "DL", some [("url3", "T3")]⟩)
      "thumbnail" = some (JVal.jstr "T3") := by
  have h := C9_optional_fields
    ⟨none, none, none, none, none, none, some "DL", some [("url3", "T3")]⟩
  refine ⟨h.2.1 "DL" rfl (by decide), ?_⟩
  have h4 := h.2.2.2 [("url3", "T3")] rfl (by decide)
  rw [h4]
  rfl

/-- C10: every emitted file object carries the six keys `filename`,
`size`, `fs_id`, `path`, `isdir`, `category` for every record, with
defaults `Unknown`, `0`, `null`, `""`, `0`, `0` when the record omits the
corresponding field (`optJNum none = jnull` is the null emission for a
missing `fs_id`). -/
theorem C10_default_fields (it : FileItem) :
    dictLookup (file_data_of it) "filename" =
      some (JVal.jstr (it.server_filename.getD "Unknown")) ∧
    dictLookup (file_data_of it) "size" = some (JVal.jnum (it.size.getD 0)) ∧
    dictLookup (file_data_of it) "fs_id" = some (optJNum it.fs_id) ∧
    dictLookup (file_data_of it) "path" = some (JVal.jstr (it.path.getD "")) ∧
    dictLookup (file_data_of it) "isdir" = some (JVal.jnum (it.isdir.getD 0)) ∧
    dictLookup (file_data_of it) "category" = some (JVal.jnum (it.category.getD 0)) ∧
    optJNum none = JVal.jnull := by
  unfold file_data_of
  cases hd : optTruthy it.dlink <;> cases ht : thumbsTruthy it.thumbs <;>
    simp [hd, ht, dictLookup, optJNum]

end Teraboxapi
